import Mathlib

/-!
Verification development for the Language-Practice repository.

The repository is a browser language-learning tool. We shallowly embed
the pure logic of its handlers: the dictionary toggle
(`handleToggleDictionaryWord` in src/App.tsx), the session state machine
(`handleTopicSelect`, `handleNext`, `handleSubmitTranslation`,
`renderContent` in src/App.tsx), the vocabulary drill handlers
(`fetchNewWord`, `handleCheck`, `handleHelp`, `handleSkip` in the
VocabularySession component of src/components/TopicSelector.tsx), and the
AI-gateway entry points (`getAI`, `generateParagraph`,
`evaluatePronunciation` in src/services/geminiService.ts).

Effectful handlers are embedded as functions returning the updated state
together with the list of network requests issued by the synchronous part
of the handler (the part that runs before any response arrives); an empty
list means the handler issues no network call.
-/

namespace LangPractice

/-- One saved dictionary entry, from src/types.ts: the target-script word
(field named `thai` in the source) and its english meaning. -/
structure VocabularyItem where
  thai : String
  english : String
deriving DecidableEq, Repr

/-- Target-language selector, from src/types.ts. -/
inductive Language where
  | Thai
  | Hebrew
deriving DecidableEq, Repr

/-- Practice mode of src/App.tsx (its types.ts declares
reading and speaking). -/
inductive PracticeMode where
  | reading
  | speaking
deriving DecidableEq, Repr

/-- AI feedback for a reading submission, from src/types.ts. -/
structure Feedback where
  isCorrect : Bool
  feedback : String
  correctTranslation : String
  vocabulary : List VocabularyItem
deriving DecidableEq, Repr

/-- A vocabulary/speaking drill item as used by the VocabularySession
component in src/components/TopicSelector.tsx (fields word, phonetic,
english). -/
structure VocabularyPracticeTarget where
  word : String
  phonetic : String
  english : String
deriving DecidableEq, Repr

/-- Parsed pronunciation-evaluation payload, from src/types.ts
(score is a JSON number; the prompt asks for an integer). -/
structure PronunciationFeedback where
  score : Int
  feedback : String
  tips : String
deriving DecidableEq, Repr

/-- A network request issued to the AI gateway, identified by the
operation and the arguments the handler passes to it. -/
inductive Request where
  | generateParagraph (topic : String) (previousParagraph : String)
  | checkTranslation (targetText : String) (userTranslation : String)
  | generatePracticeWord (topic : String) (language : Language)
      (previousWord : Option String)
  | checkWordTranslation (targetWord : String) (userInput : String)
      (language : Language)
deriving DecidableEq, Repr

/-- JavaScript String.prototype.trim as used in the input guards:
drop leading and trailing whitespace. -/
def trim (s : String) : String :=
  ⟨((s.data.dropWhile Char.isWhitespace).reverse.dropWhile
      Char.isWhitespace).reverse⟩

/-! ## Dictionary store (src/App.tsx, handleToggleDictionaryWord) -/

/-- `prevDictionary.some(word => word.thai === item.thai)` from
src/App.tsx line 44. -/
def isSaved (dictionary : List VocabularyItem) (item : VocabularyItem) : Bool :=
  dictionary.any (fun word => word.thai == item.thai)

/-- `handleToggleDictionaryWord` from src/App.tsx lines 42-58: if an
entry with the same `thai` key is saved, filter out every entry with that
key; otherwise append the item at the end. -/
def handleToggleDictionaryWord (prevDictionary : List VocabularyItem)
    (item : VocabularyItem) : List VocabularyItem :=
  if isSaved prevDictionary item then
    prevDictionary.filter (fun word => word.thai != item.thai)
  else
    prevDictionary ++ [item]

/-- The ordered list of keys of a dictionary. -/
def dictKeys (dictionary : List VocabularyItem) : List String :=
  dictionary.map (fun word => word.thai)

theorem isSaved_eq_false_iff (d : List VocabularyItem) (i : VocabularyItem) :
    isSaved d i = false ↔ ∀ w ∈ d, w.thai ≠ i.thai := by
  simp [isSaved]

theorem isSaved_eq_true_iff (d : List VocabularyItem) (i : VocabularyItem) :
    isSaved d i = true ↔ ∃ w ∈ d, w.thai = i.thai := by
  simp [isSaved]

theorem filter_eq_self_of_not_saved (d : List VocabularyItem)
    (i : VocabularyItem) (h : isSaved d i = false) :
    d.filter (fun word => word.thai != i.thai) = d := by
  rw [List.filter_eq_self]
  intro w hw
  have := (isSaved_eq_false_iff d i).1 h w hw
  simpa [bne] using this

theorem toggle_keys_nodup (d : List VocabularyItem) (i : VocabularyItem)
    (h : (dictKeys d).Nodup) :
    (dictKeys (handleToggleDictionaryWord d i)).Nodup := by
  unfold handleToggleDictionaryWord
  by_cases hs : isSaved d i = true
  · simp only [hs, if_true, dictKeys]
    exact List.Nodup.sublist
      (List.Sublist.map (fun word => word.thai) (List.filter_sublist d)) h
  · have hs' : isSaved d i = false := by
      cases hsv : isSaved d i
      · rfl
      · exact absurd hsv hs
    simp only [hs', Bool.false_eq_true, if_false]
    have hall : ∀ w ∈ d, w.thai ≠ i.thai := (isSaved_eq_false_iff d i).1 hs'
    simpa [dictKeys, List.nodup_append] using ⟨h, hall⟩

theorem toggles_keys_nodup (items : List VocabularyItem)
    (d : List VocabularyItem) (h : (dictKeys d).Nodup) :
    (dictKeys (items.foldl handleToggleDictionaryWord d)).Nodup := by
  induction items generalizing d with
  | nil => simpa using h
  | cons i rest ih =>
      simpa using ih (handleToggleDictionaryWord d i) (toggle_keys_nodup d i h)

/-- C2: starting from a dictionary with no duplicate keys, any finite
sequence of toggles preserves key-uniqueness; the membership test ignores
the probe item's english field, and removal ignores the english fields of
the stored entries (re-writing every english field commutes with the
removal filter and does not change membership). -/
theorem dictionary_toggle_nodup_and_keyed_by_word
    (d : List VocabularyItem) (items : List VocabularyItem)
    (h : (dictKeys d).Nodup) :
    (dictKeys (items.foldl handleToggleDictionaryWord d)).Nodup
    ∧ (∀ t e₁ e₂ : String,
        isSaved d ⟨t, e₁⟩ = isSaved d ⟨t, e₂⟩)
    ∧ (∀ (i : VocabularyItem) (f : VocabularyItem → String),
        isSaved (d.map (fun w => ⟨w.thai, f w⟩)) i = isSaved d i
        ∧ (d.map (fun w => (⟨w.thai, f w⟩ : VocabularyItem))).filter
            (fun word => word.thai != i.thai)
          = (d.filter (fun word => word.thai != i.thai)).map
              (fun w => ⟨w.thai, f w⟩)) := by
  refine ⟨toggles_keys_nodup items d h, ?_, ?_⟩
  · intro t e₁ e₂
    simp [isSaved]
  · intro i f
    constructor
    · simp [isSaved, List.any_map]
      rfl
    · rw [List.filter_map]
      rfl

/-- C2 witness: concrete instance of the key-uniqueness invariant. -/
theorem dictionary_toggle_nodup_and_keyed_by_word_witness :
    (dictKeys ([⟨"ab", "x"⟩] : List VocabularyItem)).Nodup
    ∧ ((dictKeys
        (([⟨"cd", "y"⟩, ⟨"ab", "z"⟩, ⟨"cd", "w"⟩] :
            List VocabularyItem).foldl handleToggleDictionaryWord
          [⟨"ab", "x"⟩])).Nodup
      ∧ (∀ t e₁ e₂ : String,
          isSaved [⟨"ab", "x"⟩] ⟨t, e₁⟩ = isSaved [⟨"ab", "x"⟩] ⟨t, e₂⟩)
      ∧ (∀ (i : VocabularyItem) (f : VocabularyItem → String),
          isSaved (([⟨"ab", "x"⟩] : List VocabularyItem).map
              (fun w => ⟨w.thai, f w⟩)) i = isSaved [⟨"ab", "x"⟩] i
          ∧ (([⟨"ab", "x"⟩] : List VocabularyItem).map
                (fun w => (⟨w.thai, f w⟩ : VocabularyItem))).filter
              (fun word => word.thai != i.thai)
            = (([⟨"ab", "x"⟩] : List VocabularyItem).filter
                (fun word => word.thai != i.thai)).map
                (fun w => ⟨w.thai, f w⟩))) :=
  ⟨by decide,
    dictionary_toggle_nodup_and_keyed_by_word
      [⟨"ab", "x"⟩] [⟨"cd", "y"⟩, ⟨"ab", "z"⟩, ⟨"cd", "w"⟩] (by decide)⟩

/-! ## Session state machine (src/App.tsx) -/

/-- The component state of src/App.tsx relevant to the session state
machine: one field per useState hook (audio/dictionary-view state and the
dictionary list are handled separately). -/
structure AppState where
  topic : Option String
  mode : PracticeMode
  currentParagraph : String
  feedback : Option Feedback
  isLoading : Bool
  isAudioLoading : Bool
  error : Option String
  userTranslation : String
  progressCount : Nat
  dictionary : List VocabularyItem
deriving DecidableEq, Repr

/-- The synchronous part of `handleNewParagraph` (src/App.tsx lines
60-74): set the loading flag, clear error, feedback and the input box,
and issue a generateParagraph request carrying the previous paragraph. -/
def startNewParagraph (selectedTopic : String) (s : AppState) :
    AppState × List Request :=
  ({ s with
      isLoading := true
      error := none
      feedback := none
      userTranslation := "" },
   [Request.generateParagraph selectedTopic s.currentParagraph])

/-- `handleTopicSelect` from src/App.tsx lines 76-85: record topic and
mode, set progressCount to 1; reading mode fetches the first paragraph,
speaking mode defers its first fetch to the child component. -/
def handleTopicSelect (selectedTopic : String) (selectedMode : PracticeMode)
    (s : AppState) : AppState × List Request :=
  let s1 := { s with
      topic := some selectedTopic
      mode := selectedMode
      progressCount := 1 }
  match selectedMode with
  | PracticeMode.reading => startNewParagraph selectedTopic s1
  | PracticeMode.speaking => (s1, [])

/-- The synchronous part of `handleSubmitTranslation` (src/App.tsx lines
87-102): reject locally when the trimmed input is empty or no topic is
selected; otherwise set the loading flag, clear error and feedback, and
issue a checkTranslation request. -/
def handleSubmitTranslation (s : AppState) : AppState × List Request :=
  if trim s.userTranslation = "" ∨ s.topic = none then (s, [])
  else
    ({ s with
        isLoading := true
        error := none
        feedback := none },
     [Request.checkTranslation s.currentParagraph s.userTranslation])

/-- `handleNext` from src/App.tsx lines 104-112: do nothing without a
topic; otherwise increment progressCount and, while the new count is
still within the session length and the mode is reading, fetch the next
paragraph. `sessionLength` stands for the SESSION_LENGTH constant
imported from src/constants.ts. -/
def handleNext (sessionLength : Nat) (s : AppState) : AppState × List Request :=
  match s.topic with
  | none => (s, [])
  | some t =>
      let s1 := { s with progressCount := s.progressCount + 1 }
      if s1.progressCount ≤ sessionLength ∧ s.mode = PracticeMode.reading then
        startNewParagraph t s1
      else
        (s1, [])

/-- The state-updating part of `handleNext`. -/
def nextState (sessionLength : Nat) (s : AppState) : AppState :=
  (handleNext sessionLength s).1

/-- `nextState` iterated a number of times. -/
def iterateNext (sessionLength : Nat) : Nat → AppState → AppState
  | 0, s => s
  | Nat.succ k, s => iterateNext sessionLength k (nextState sessionLength s)

/-- Which screen `renderContent` (src/App.tsx lines 157-197) shows. -/
inductive SessionView where
  | idle
  | complete
  | activeSpeaking
  | activeReading
deriving DecidableEq, Repr

/-- `renderContent` from src/App.tsx lines 157-197: no topic shows the
topic selector; progressCount beyond the session length shows the
completion screen; otherwise the active session for the current mode. -/
def renderContent (sessionLength : Nat) (s : AppState) : SessionView :=
  if s.topic = none then SessionView.idle
  else if s.progressCount > sessionLength then SessionView.complete
  else if s.mode = PracticeMode.speaking then SessionView.activeSpeaking
  else SessionView.activeReading

theorem nextState_topic (sessionLength : Nat) (s : AppState) :
    (nextState sessionLength s).topic = s.topic := by
  unfold nextState handleNext
  cases h : s.topic with
  | none => simp [h]
  | some t =>
      simp only []
      split
      · simp [startNewParagraph, h]
      · simp [h]

theorem nextState_progress (sessionLength : Nat) (s : AppState)
    (h : s.topic.isSome) :
    (nextState sessionLength s).progressCount = s.progressCount + 1 := by
  unfold nextState handleNext
  cases ht : s.topic with
  | none => rw [ht] at h; simp at h
  | some t =>
      simp only []
      split
      · simp [startNewParagraph]
      · simp

theorem iterateNext_spec (sessionLength : Nat) (k : Nat) (s : AppState)
    (h : s.topic.isSome) :
    (iterateNext sessionLength k s).topic = s.topic
    ∧ (iterateNext sessionLength k s).progressCount = s.progressCount + k := by
  induction k generalizing s with
  | zero => simp [iterateNext]
  | succ n ih =>
      have htop := nextState_topic sessionLength s
      have h1 : (nextState sessionLength s).topic.isSome := by
        rw [htop]; exact h
      have := ih (nextState sessionLength s) h1
      refine ⟨by rw [iterateNext, this.1, htop], ?_⟩
      rw [iterateNext, this.2, nextState_progress sessionLength s h]
      omega

theorem renderContent_complete_iff (sessionLength : Nat) (s : AppState) :
    renderContent sessionLength s = SessionView.complete
      ↔ (s.topic.isSome ∧ sessionLength < s.progressCount) := by
  unfold renderContent
  split
  · rename_i ht
    simp [ht]
  · rename_i ht
    split
    · rename_i hp
      simp only [gt_iff_lt] at hp
      simp [Option.isSome_iff_ne_none, ht, hp]
    · rename_i hp
      simp only [gt_iff_lt, not_lt] at hp
      split
      · simp; omega
      · simp; omega

theorem handleTopicSelect_fst (selectedTopic : String)
    (selectedMode : PracticeMode) (s : AppState) :
    ((handleTopicSelect selectedTopic selectedMode s).1).topic
        = some selectedTopic
    ∧ ((handleTopicSelect selectedTopic selectedMode s).1).progressCount = 1 := by
  unfold handleTopicSelect
  cases selectedMode with
  | reading => simp [startNewParagraph]
  | speaking => simp

theorem renderContent_active (sessionLength : Nat) (s : AppState) (t : String)
    (htop : s.topic = some t) (hp : s.progressCount ≤ sessionLength) :
    renderContent sessionLength s ≠ SessionView.idle
    ∧ renderContent sessionLength s ≠ SessionView.complete := by
  unfold renderContent
  have h1 : ¬ s.topic = none := by simp [htop]
  have h2 : ¬ s.progressCount > sessionLength := by omega
  rw [if_neg h1, if_neg h2]
  split <;> simp

/-- The state right after a topic/mode selection. -/
def sessionAfterSelect (selectedTopic : String) (selectedMode : PracticeMode)
    (s : AppState) : AppState :=
  (handleTopicSelect selectedTopic selectedMode s).1

/-- The property bundle of claim C1: selection starts an active session
at progressCount 1, each next() adds exactly 1, the completion screen
shows exactly when progressCount exceeds the session length, and with
length 5 the 5th next() (and not the 4th) completes the session. -/
def SelectNextCompleteStatement (sessionLength : Nat) (s : AppState)
    (selectedTopic : String) (selectedMode : PracticeMode) : Prop :=
  ((sessionAfterSelect selectedTopic selectedMode s).progressCount = 1
    ∧ renderContent sessionLength (sessionAfterSelect selectedTopic selectedMode s)
        ≠ SessionView.idle
    ∧ renderContent sessionLength (sessionAfterSelect selectedTopic selectedMode s)
        ≠ SessionView.complete)
  ∧ (∀ s' : AppState, s'.topic.isSome →
      (nextState sessionLength s').progressCount = s'.progressCount + 1)
  ∧ (∀ s' : AppState, renderContent sessionLength s' = SessionView.complete
      ↔ (s'.topic.isSome ∧ sessionLength < s'.progressCount))
  ∧ (renderContent 5 (iterateNext 5 5 (sessionAfterSelect selectedTopic selectedMode s))
        = SessionView.complete
    ∧ renderContent 5 (iterateNext 5 4 (sessionAfterSelect selectedTopic selectedMode s))
        ≠ SessionView.complete)

/-- C1: selectTopic puts the session in Active with progressCount = 1;
every next() call during a session increments progressCount by exactly 1;
the session shows Complete exactly when progressCount > SESSION_LENGTH;
and for SESSION_LENGTH = 5 the 5th next() after selection (and not the
4th) reaches Complete. -/
theorem session_select_next_complete (sessionLength : Nat)
    (hlen : 1 ≤ sessionLength) (s : AppState) (selectedTopic : String)
    (selectedMode : PracticeMode) :
    SelectNextCompleteStatement sessionLength s selectedTopic selectedMode := by
  obtain ⟨htop, hprog⟩ := handleTopicSelect_fst selectedTopic selectedMode s
  have htop' : (sessionAfterSelect selectedTopic selectedMode s).topic
      = some selectedTopic := htop
  have hprog' : (sessionAfterSelect selectedTopic selectedMode s).progressCount
      = 1 := hprog
  have hsome : (sessionAfterSelect selectedTopic selectedMode s).topic.isSome := by
    rw [htop']; rfl
  refine ⟨⟨hprog', ?_, ?_⟩, ?_, ?_, ?_, ?_⟩
  · exact (renderContent_active sessionLength _ selectedTopic htop'
      (by omega)).1
  · exact (renderContent_active sessionLength _ selectedTopic htop'
      (by omega)).2
  · intro s' h'
    exact nextState_progress sessionLength s' h'
  · intro s'
    exact renderContent_complete_iff sessionLength s'
  · have h5 := iterateNext_spec 5 5 (sessionAfterSelect selectedTopic selectedMode s) hsome
    rw [renderContent_complete_iff]
    refine ⟨?_, ?_⟩
    · rw [h5.1]; exact hsome
    · rw [h5.2, hprog']; omega
  · have h4 := iterateNext_spec 5 4 (sessionAfterSelect selectedTopic selectedMode s) hsome
    intro hc
    rw [renderContent_complete_iff] at hc
    have := hc.2
    rw [h4.2, hprog'] at this
    omega

/-- C1 witness: the bundle instantiated at session length 5 and a
concrete initial state. -/
theorem session_select_next_complete_witness :
    1 ≤ 5
    ∧ SelectNextCompleteStatement 5
        ⟨none, PracticeMode.reading, "", none, false, false, none, "", 0, []⟩
        "Food" PracticeMode.reading :=
  ⟨by decide,
    session_select_next_complete 5 (by decide)
      ⟨none, PracticeMode.reading, "", none, false, false, none, "", 0, []⟩
      "Food" PracticeMode.reading⟩

/-- C10: next() with no topic selected is a no-op: the state is returned
unchanged and no request is issued. -/
theorem handleNext_idle_noop (sessionLength : Nat) (s : AppState)
    (h : s.topic = none) :
    handleNext sessionLength s = (s, []) := by
  unfold handleNext
  rw [h]

/-- C10 witness: the no-op at a concrete Idle state. -/
theorem handleNext_idle_noop_witness :
    (⟨none, PracticeMode.reading, "", none, false, false, none, "", 0, []⟩ :
        AppState).topic = none
    ∧ handleNext 5
        ⟨none, PracticeMode.reading, "", none, false, false, none, "", 0, []⟩
      = (⟨none, PracticeMode.reading, "", none, false, false, none, "", 0, []⟩,
         []) :=
  ⟨rfl,
    handleNext_idle_noop 5
      ⟨none, PracticeMode.reading, "", none, false, false, none, "", 0, []⟩ rfl⟩

/-! ## Toggle twice and the toggle frame property -/

theorem isSaved_congr (d : List VocabularyItem) (i i' : VocabularyItem)
    (hk : i'.thai = i.thai) : isSaved d i' = isSaved d i := by
  simp [isSaved, hk]

theorem isSaved_append_same_key (d : List VocabularyItem)
    (i i' : VocabularyItem) (hk : i'.thai = i.thai) :
    isSaved (d ++ [i]) i' = true := by
  simp [isSaved, hk]

theorem isSaved_filter_out (d : List VocabularyItem) (i i' : VocabularyItem)
    (hk : i'.thai = i.thai) :
    isSaved (d.filter (fun word => word.thai != i.thai)) i' = false := by
  rw [isSaved_eq_false_iff]
  intro w hw
  have := (List.mem_filter.1 hw).2
  rw [hk]
  simpa [bne] using this

/-- C3 counterexample: toggling the same item twice does not restore the
dictionary when the matching entry is not the last one — the entry is
removed in place and re-appended at the end, so the order changes. -/
theorem toggle_twice_not_identity :
    handleToggleDictionaryWord
        (handleToggleDictionaryWord
          [⟨"ab", "x"⟩, ⟨"cd", "y"⟩] ⟨"ab", "x"⟩) ⟨"ab", "x"⟩
      ≠ [⟨"ab", "x"⟩, ⟨"cd", "y"⟩] := by
  decide

/-- The corrected double-toggle behaviour: if the key is absent the two
toggles cancel exactly; if the key is present the result is the original
dictionary with every matching entry removed and the second item
appended at the end. -/
def ToggleTwiceStatement (d : List VocabularyItem)
    (i i' : VocabularyItem) : Prop :=
  (isSaved d i = false →
    handleToggleDictionaryWord (handleToggleDictionaryWord d i) i' = d)
  ∧ (isSaved d i = true →
      handleToggleDictionaryWord (handleToggleDictionaryWord d i) i'
        = d.filter (fun word => word.thai != i.thai) ++ [i'])

/-- C3 (amended): for two items sharing the same word key, toggling twice
restores the dictionary exactly when the key was absent; when the key was
present the result is the original with the matching entries removed and
the second item appended at the end. -/
theorem toggle_twice_characterization (d : List VocabularyItem)
    (i i' : VocabularyItem) (hk : i'.thai = i.thai) :
    ToggleTwiceStatement d i i' := by
  constructor
  · intro hs
    have h1 : handleToggleDictionaryWord d i = d ++ [i] := by
      unfold handleToggleDictionaryWord
      rw [hs]
      simp
    rw [h1]
    unfold handleToggleDictionaryWord
    rw [isSaved_append_same_key d i i' hk]
    simp only [if_true]
    rw [List.filter_append]
    have h2 : ([i].filter (fun word => word.thai != i'.thai)) = [] := by
      simp [hk]
    rw [h2, List.append_nil, hk]
    exact filter_eq_self_of_not_saved d i hs
  · intro hs
    have h1 : handleToggleDictionaryWord d i
        = d.filter (fun word => word.thai != i.thai) := by
      unfold handleToggleDictionaryWord
      rw [hs]
      simp
    rw [h1]
    unfold handleToggleDictionaryWord
    rw [isSaved_filter_out d i i' hk]
    simp

/-- C3 witness for the amended claim: concrete instances of both the
absent-key and present-key cases. -/
theorem toggle_twice_characterization_witness :
    (⟨"ab", "y"⟩ : VocabularyItem).thai = (⟨"ab", "x"⟩ : VocabularyItem).thai
    ∧ ToggleTwiceStatement [⟨"cd", "y"⟩, ⟨"ab", "z"⟩] ⟨"ab", "x"⟩ ⟨"ab", "y"⟩ :=
  ⟨rfl, toggle_twice_characterization [⟨"cd", "y"⟩, ⟨"ab", "z"⟩]
    ⟨"ab", "x"⟩ ⟨"ab", "y"⟩ rfl⟩

/-- The frame property of a single toggle: entries whose key differs from
the toggled key are untouched (same values, same relative order), the
not-saved branch appends at the end, and the saved branch filters out
exactly the matching key. -/
def ToggleFrameStatement (d : List VocabularyItem) (i : VocabularyItem) : Prop :=
  (handleToggleDictionaryWord d i).filter (fun word => word.thai != i.thai)
      = d.filter (fun word => word.thai != i.thai)
  ∧ (isSaved d i = false → handleToggleDictionaryWord d i = d ++ [i])
  ∧ (isSaved d i = true →
      handleToggleDictionaryWord d i
        = d.filter (fun word => word.thai != i.thai))

/-- C9: toggle(item) modifies at most the entries matching the item's
word key; all other entries keep their values and relative order
(removal filters only the matching key, insertion appends at the end). -/
theorem toggle_frame (d : List VocabularyItem) (i : VocabularyItem) :
    ToggleFrameStatement d i := by
  refine ⟨?_, ?_, ?_⟩
  · unfold handleToggleDictionaryWord
    by_cases hs : isSaved d i = true
    · rw [hs]
      simp only [if_true]
      rw [List.filter_filter]
      simp
    · have hs' : isSaved d i = false := by
        cases hsv : isSaved d i
        · rfl
        · exact absurd hsv hs
      rw [hs']
      simp only [Bool.false_eq_true, if_false]
      rw [List.filter_append]
      simp
  · intro hs
    unfold handleToggleDictionaryWord
    rw [hs]
    simp
  · intro hs
    unfold handleToggleDictionaryWord
    rw [hs]
    simp

/-- C9 witness: the frame property at a concrete dictionary and item. -/
theorem toggle_frame_witness :
    ToggleFrameStatement [⟨"ab", "x"⟩, ⟨"cd", "y"⟩] ⟨"ab", "z"⟩ :=
  toggle_frame [⟨"ab", "x"⟩, ⟨"cd", "y"⟩] ⟨"ab", "z"⟩

/-! ## Vocabulary drill session
(VocabularySession in src/components/TopicSelector.tsx) -/

/-- The feedback state of the VocabularySession component:
`{ isCorrect, feedback, correctMeaning, isHelpReveal }`. -/
structure WordFeedback where
  isCorrect : Bool
  feedback : String
  correctMeaning : String
  isHelpReveal : Bool
deriving DecidableEq, Repr

/-- The component state of VocabularySession (one field per useState
hook, plus the topic/language/progressCount props it receives). -/
structure VocabSessionState where
  topic : String
  language : Language
  progressCount : Nat
  currentTarget : Option VocabularyPracticeTarget
  userAnswer : String
  feedback : Option WordFeedback
  isProcessing : Bool
  isAudioLoading : Bool
  error : Option String
deriving DecidableEq, Repr

/-- The fixed reveal text of handleHelp
(src/components/TopicSelector.tsx line 215). -/
def helpRevealMessage : String :=
  "Don\x27t worry! Here is the correct meaning to help you learn."

/-- The synchronous part of `fetchNewWord` (src/components/
TopicSelector.tsx lines 152-165): set the processing flag, clear
feedback, answer and error, and issue a generatePracticeWord request
carrying the previous word. -/
def fetchNewWord (s : VocabSessionState) : VocabSessionState × List Request :=
  ({ s with
      isProcessing := true
      feedback := none
      userAnswer := ""
      error := none },
   [Request.generatePracticeWord s.topic s.language
      (s.currentTarget.map (fun t => t.word))])

/-- The synchronous part of `handleCheck` (src/components/
TopicSelector.tsx lines 197-208): reject locally when the trimmed answer
is empty or no target is loaded; otherwise set the processing flag and
issue a checkWordTranslation request. -/
def handleCheck (s : VocabSessionState) : VocabSessionState × List Request :=
  match s.currentTarget with
  | none => (s, [])
  | some t =>
      if trim s.userAnswer = "" then (s, [])
      else
        ({ s with isProcessing := true },
         [Request.checkWordTranslation t.word s.userAnswer s.language])

/-- `handleHelp` (src/components/TopicSelector.tsx lines 210-218): with
a target loaded, locally synthesize a reveal feedback object (isCorrect
false, isHelpReveal true, correct meaning copied from the loaded
target); no request is issued. -/
def handleHelp (s : VocabSessionState) : VocabSessionState × List Request :=
  match s.currentTarget with
  | none => (s, [])
  | some t =>
      ({ s with
          feedback := some
            { isCorrect := false
              feedback := helpRevealMessage
              correctMeaning := t.english
              isHelpReveal := true } },
       [])

/-- `handleSkip` (src/components/TopicSelector.tsx lines 220-222): just
calls fetchNewWord. -/
def handleSkip (s : VocabSessionState) : VocabSessionState × List Request :=
  fetchNewWord s

/-- C4: help() with a loaded target issues no network request and sets a
locally synthesized feedback object with isCorrect = false whose correct
meaning is copied from the loaded target's english field. -/
theorem help_is_local_reveal (s : VocabSessionState)
    (t : VocabularyPracticeTarget) (h : s.currentTarget = some t) :
    handleHelp s =
      ({ s with
          feedback := some
            { isCorrect := false
              feedback := helpRevealMessage
              correctMeaning := t.english
              isHelpReveal := true } },
       []) := by
  unfold handleHelp
  rw [h]

/-- C4 witness: the reveal at a concrete loaded state. -/
theorem help_is_local_reveal_witness :
    (⟨"Food", Language.Thai, 1, some ⟨"ab", "ph", "water"⟩, "", none,
        false, false, none⟩ : VocabSessionState).currentTarget
      = some ⟨"ab", "ph", "water"⟩
    ∧ handleHelp
        ⟨"Food", Language.Thai, 1, some ⟨"ab", "ph", "water"⟩, "", none,
          false, false, none⟩
      = (⟨"Food", Language.Thai, 1, some ⟨"ab", "ph", "water"⟩, "",
          some ⟨false, helpRevealMessage, "water", true⟩, false, false,
          none⟩,
         []) :=
  ⟨rfl,
    help_is_local_reveal
      ⟨"Food", Language.Thai, 1, some ⟨"ab", "ph", "water"⟩, "", none,
        false, false, none⟩
      ⟨"ab", "ph", "water"⟩ rfl⟩

/-- C5: with an empty user input, submission is rejected locally in both
the reading session (handleSubmitTranslation in src/App.tsx) and the
vocabulary session (handleCheck): no request is issued and the state is
returned unchanged. -/
theorem empty_input_rejected_locally :
    (∀ s : AppState, trim s.userTranslation = "" →
      handleSubmitTranslation s = (s, []))
    ∧ (∀ v : VocabSessionState, trim v.userAnswer = "" →
        handleCheck v = (v, [])) := by
  constructor
  · intro s h
    unfold handleSubmitTranslation
    rw [if_pos (Or.inl h)]
  · intro v h
    unfold handleCheck
    split
    · rfl
    · rw [if_pos h]

/-- C5 witness: the rejection at concrete states with empty input. -/
theorem empty_input_rejected_locally_witness :
    (trim (⟨some "Food", PracticeMode.reading, "para", none, false, false,
        none, "", 1, []⟩ : AppState).userTranslation = ""
      ∧ handleSubmitTranslation
          ⟨some "Food", PracticeMode.reading, "para", none, false, false,
            none, "", 1, []⟩
        = (⟨some "Food", PracticeMode.reading, "para", none, false, false,
            none, "", 1, []⟩, []))
    ∧ (trim (⟨"Food", Language.Thai, 1, some ⟨"ab", "ph", "water"⟩, "",
          none, false, false, none⟩ : VocabSessionState).userAnswer = ""
      ∧ handleCheck
          ⟨"Food", Language.Thai, 1, some ⟨"ab", "ph", "water"⟩, "", none,
            false, false, none⟩
        = (⟨"Food", Language.Thai, 1, some ⟨"ab", "ph", "water"⟩, "",
            none, false, false, none⟩, [])) :=
  ⟨⟨rfl,
      empty_input_rejected_locally.1
        ⟨some "Food", PracticeMode.reading, "para", none, false, false,
          none, "", 1, []⟩ rfl⟩,
    ⟨rfl,
      empty_input_rejected_locally.2
        ⟨"Food", Language.Thai, 1, some ⟨"ab", "ph", "water"⟩, "", none,
          false, false, none⟩ rfl⟩⟩

/-- C8: skip() leaves progressCount unchanged, discards the current
attempt (feedback and answer cleared, no submission request), and issues
exactly one generatePracticeWord fetch for the next item. -/
theorem skip_fetches_without_advancing (s : VocabSessionState) :
    (handleSkip s).1.progressCount = s.progressCount
    ∧ (handleSkip s).1.feedback = none
    ∧ (handleSkip s).1.userAnswer = ""
    ∧ (handleSkip s).2
      = [Request.generatePracticeWord s.topic s.language
          (s.currentTarget.map (fun t => t.word))] := by
  unfold handleSkip fetchNewWord
  exact ⟨rfl, rfl, rfl, rfl⟩

/-! ## AI gateway (src/services/geminiService.ts) -/

/-- `getAI` (src/services/geminiService.ts lines 5-13): reads the
credential and throws "VITE_GEMINI_API_KEY is not set" when it is absent
or empty (a falsy value in the source); otherwise yields a client. It is
invoked inside each operation, not at module load. -/
def getAI (apiKey : Option String) : Except String Unit :=
  match apiKey with
  | none => Except.error ("VITE_GEMINI_API_KEY is not set")
  | some k =>
      if k = "" then Except.error ("VITE_GEMINI_API_KEY is not set")
      else Except.ok ()

/-- `generateParagraph` (src/services/geminiService.ts lines 38-81),
with the backend round trip abstracted as an argument: the body runs
getAI, performs the request, and returns the parsed paragraph; any
failure inside the try block (including the getAI throw) is caught and
normalized to the single error "Could not generate a paragraph.". -/
def generateParagraph (apiKey : Option String) (topic : String)
    (language : Language) (previousParagraph : Option String)
    (backend : Except String String) : Except String String :=
  match getAI apiKey with
  | Except.error _ => Except.error ("Could not generate a paragraph.")
  | Except.ok _ =>
      match backend with
      | Except.ok paragraph => Except.ok paragraph
      | Except.error _ => Except.error ("Could not generate a paragraph.")

/-- `evaluatePronunciation` (src/services/geminiService.ts lines
246-278), with the backend round trip abstracted as an argument: on
success the parsed JSON payload is returned to the caller verbatim
(`return JSON.parse(response.text)`); no clamping or range validation of
the score is performed. Any failure is normalized to
"Evaluation failed.". -/
def evaluatePronunciation (apiKey : Option String) (targetWord : String)
    (audioBase64 : String) (mimeType : String) (language : Language)
    (backend : Except String PronunciationFeedback) :
    Except String PronunciationFeedback :=
  match getAI apiKey with
  | Except.error _ => Except.error ("Evaluation failed.")
  | Except.ok _ =>
      match backend with
      | Except.ok parsed => Except.ok parsed
      | Except.error _ => Except.error ("Evaluation failed.")

/-- Initialization of the App component (src/App.tsx lines 17-40): the
initial useState values plus the mount effect that loads the persisted
dictionary (absent or unreadable storage degrades to an empty list).
The credential is passed as an argument to express that startup never
consults it. -/
def appInit (apiKey : Option String)
    (storedDictionary : Option (List VocabularyItem)) : AppState :=
  { topic := none
    mode := PracticeMode.reading
    currentParagraph := ""
    feedback := none
    isLoading := false
    isAudioLoading := false
    error := none
    userTranslation := ""
    progressCount := 0
    dictionary := storedDictionary.getD [] }

/-- C6 counterexample: a backend response with score 150 is delivered to
the caller with score 150 — outside [0, 100], so no clamping or
validation of the range happens. -/
theorem score_not_clamped :
    evaluatePronunciation (some ("key")) "ab" "zz" "audio/webm"
        Language.Thai (Except.ok ⟨150, "f", "t"⟩)
      = Except.ok ⟨150, "f", "t"⟩
    ∧ ¬ ((0 : Int) ≤ 150 ∧ (150 : Int) ≤ 100) :=
  ⟨rfl, by decide⟩

/-- C6 (amended): with a usable credential, the evaluation result
delivered to the caller is exactly the parsed backend payload — the
score is passed through unvalidated; the [0, 100] range is only
requested from the backend via the prompt and schema. -/
theorem evaluatePronunciation_passthrough (apiKey : Option String)
    (targetWord audioBase64 mimeType : String) (language : Language)
    (parsed : PronunciationFeedback)
    (h : getAI apiKey = Except.ok ()) :
    evaluatePronunciation apiKey targetWord audioBase64 mimeType language
        (Except.ok parsed) = Except.ok parsed := by
  unfold evaluatePronunciation
  rw [h]

/-- C6 witness: the pass-through at a concrete credential and payload. -/
theorem evaluatePronunciation_passthrough_witness :
    getAI (some ("key")) = Except.ok ()
    ∧ evaluatePronunciation (some ("key")) "ab" "zz" "audio/webm"
        Language.Thai (Except.ok ⟨70, "f", "t"⟩)
      = Except.ok ⟨70, "f", "t"⟩ :=
  ⟨rfl,
    evaluatePronunciation_passthrough (some ("key")) "ab" "zz"
      "audio/webm" Language.Thai ⟨70, "f", "t"⟩ rfl⟩

/-- C7 counterexample: with the credential missing the application still
initializes — appInit yields the same initial state as with a credential
present — while the failure instead happens inside an individual
operation, normalized to that operation's error message. -/
theorem missing_credential_init_succeeds :
    appInit none none = appInit (some ("key")) none
    ∧ (appInit none none).topic = none
    ∧ (appInit none none).progressCount = 0
    ∧ generateParagraph none "Food" Language.Thai none (Except.ok ("para"))
        = Except.error ("Could not generate a paragraph.") :=
  ⟨rfl, rfl, rfl, rfl⟩

/-- C7 (amended): startup never consults the credential — appInit is
independent of it — and a missing credential makes each AI operation
fail at call time with that operation's normalized error. -/
theorem missing_credential_fails_per_operation
    (apiKey apiKey' : Option String)
    (storedDictionary : Option (List VocabularyItem)) :
    appInit apiKey storedDictionary = appInit apiKey' storedDictionary
    ∧ (∀ (topic : String) (language : Language)
        (previousParagraph : Option String)
        (backend : Except String String),
        generateParagraph none topic language previousParagraph backend
          = Except.error ("Could not generate a paragraph."))
    ∧ (∀ (targetWord audioBase64 mimeType : String) (language : Language)
        (backend : Except String PronunciationFeedback),
        evaluatePronunciation none targetWord audioBase64 mimeType
            language backend
          = Except.error ("Evaluation failed.")) := by
  refine ⟨rfl, ?_, ?_⟩ <;> intros <;> rfl

end LangPractice
